import Mathlib

/-!
Verification development for the IotMongo repository: a shallow embedding of
the sensor-reading data model (`sensor_simulator.py`), and of the statistical
analyzer (`analisis_opcional.py`, class `AdvancedAnalysis`), together with
theorems settling the specification claims.

Modelling conventions:
* Python floats are embedded as exact rationals (`ℚ`) where the computation is
  rational, and as reals (`ℝ`) where a square root appears
  (`statistics.stdev`).  `round(x, n)` is embedded as `roundq n` / `roundTo n`
  (round-half-up; Python's round-half-to-even differs only at exact ties,
  which do not arise at any input considered here).
* ISO-8601 UTC timestamp strings are embedded as epoch seconds (`ℤ`):
  lexicographic order on the uniformly formatted strings produced by the
  generator coincides with chronological order, and MongoDB's `$hour` of the
  parsed instant is the UTC hour of day.
* The random draws of `random.uniform` / `random.randint` / `random.choice`
  are explicit parameters; the library's contracts (draw lies in the given
  closed range / is a member of the given list) become hypotheses.
* Store access (`self.collection`) is a parameter of type
  `Option (Except String (List Reading))`: `none` models `self.collection is
  None` (no connection established), `some (.error e)` models the fetch /
  aggregate call raising an exception (caught by the `try/except` blocks),
  `some (.ok rs)` a successful fetch of the document list `rs`.
-/

/-- `round(x, n)` on exact rationals: round `x` to `n` decimal places. -/
def roundq (n : ℕ) (x : ℚ) : ℚ := (round (x * 10 ^ n) : ℤ) / 10 ^ n

/-- `round(x, n)` on reals (used where `statistics.stdev` makes values
irrational). -/
noncomputable def roundTo (n : ℕ) (x : ℝ) : ℝ := (round (x * 10 ^ n) : ℤ) / 10 ^ n

/-- A stored sensor-reading document.  Numeric fields are `Option ℚ` because
`detect_outliers` explicitly handles documents that lack the analyzed field
(`if field in reading`); the generator always fills the fields of its family.
`timestamp` is the recorded UTC instant in epoch seconds. -/
structure Reading where
  device_id : String
  type : String
  temperature : Option ℚ
  humidity : Option ℚ
  light : Option ℚ
  uv_index : Option ℚ
  unit : Option String
  location : String
  timestamp : ℤ
deriving DecidableEq, Repr

/-! ## Reading generator (`sensor_simulator.py`, class `SensorSimulator`) -/

/-- `self.interior_sensors`. -/
def interior_sensors : List String := ["sensor_01", "sensor_03", "sensor_05"]

/-- `self.exterior_sensors`. -/
def exterior_sensors : List String := ["sensor_02", "sensor_04", "sensor_06"]

/-- `self.interior_locations`. -/
def interior_locations : List String := ["Sala 1", "Sala 2", "Oficina A", "Oficina B"]

/-- `self.exterior_locations`. -/
def exterior_locations : List String := ["Patio", "Jardín", "Terraza", "Entrada"]

/-- `_celsius_to_fahrenheit`: `round((celsius * 9/5) + 32, 1)`. -/
def _celsius_to_fahrenheit (celsius : ℚ) : ℚ := roundq 1 (celsius * 9 / 5 + 32)

/-- `generate_interior_reading`.  `devPick`, `tempDraw`, `humDraw`,
`lightDraw`, `locPick` are the values produced by the `random` calls
(`choice`, `uniform(18.0, 28.0)`, `randint(30, 70)`, `randint(100, 500)`,
`choice`); `now` is the UTC instant of the `datetime.now(timezone.utc)`
call. -/
def generate_interior_reading (device_id : Option String) (devPick : String)
    (tempDraw : ℚ) (humDraw : ℤ) (lightDraw : ℤ) (locPick : String)
    (now : ℤ) : Reading :=
  ⟨device_id.getD devPick, "interior", some (roundq 1 tempDraw),
    some (humDraw : ℚ), some (lightDraw : ℚ), none, some "C", locPick, now⟩

/-- `generate_exterior_reading`.  `tempDraw` is the `uniform(5.0, 35.0)`
Celsius draw (converted with `_celsius_to_fahrenheit`), `lightDraw` the
`randint(200, 1000)` draw, `uvDraw` the `uniform(0.0, 11.0)` draw (rounded to
one decimal). -/
def generate_exterior_reading (device_id : Option String) (devPick : String)
    (tempDraw : ℚ) (lightDraw : ℤ) (uvDraw : ℚ) (locPick : String)
    (now : ℤ) : Reading :=
  ⟨device_id.getD devPick, "exterior", some (_celsius_to_fahrenheit tempDraw),
    none, some (lightDraw : ℚ), some (roundq 1 uvDraw), some "F", locPick, now⟩

/-! ## Outlier detection (`AdvancedAnalysis.detect_outliers`) -/

/-- Dictionary-style access `reading[field]` for the numeric fields of the
document schema; `none` models `field in reading` being false. -/
def getField (r : Reading) : String → Option ℚ
  | "temperature" => r.temperature
  | "humidity" => r.humidity
  | "light" => r.light
  | "uv_index" => r.uv_index
  | _ => none

/-- The normalization applied to each raw value: `if field == "temperature"
and reading.get("unit") == "F": value = (reading[field] - 32) / 1.8`. -/
def normValue (field : String) (r : Reading) (v : ℚ) : ℚ :=
  if field = "temperature" ∧ r.unit = some "F" then (v - 32) / 1.8 else v

/-- The `values` list built by `detect_outliers`: the normalized value of
every fetched document that contains `field`. -/
def values (field : String) (rs : List Reading) : List ℚ :=
  rs.filterMap fun r => (getField r field).map (normValue field r)

/-- `statistics.mean`. -/
def mean (vs : List ℚ) : ℚ := vs.sum / vs.length

/-- The sample (Bessel-corrected) variance underlying `statistics.stdev`. -/
def svar (vs : List ℚ) : ℚ :=
  (vs.map fun v => (v - mean vs) ^ 2).sum / ((vs.length : ℚ) - 1)

/-- `statistics.stdev`: square root of the sample variance. -/
noncomputable def stdev (vs : List ℚ) : ℝ := Real.sqrt (svar vs)

/-- One element of the list returned by `detect_outliers`
(`outlier_doc` in the source). -/
structure OutlierDoc where
  device_id : String
  type : String
  timestamp : ℤ
  value : ℚ
  unit : Option String
  z_score : ℝ
  value_celsius : ℚ
  mean : ℚ
  std_dev : ℝ

/-- The `outlier_doc` dictionary built for a flagged reading. -/
noncomputable def mkOutlierDoc (field : String) (r : Reading) (v : ℚ)
    (z : ℝ) (m : ℚ) (sd : ℝ) : OutlierDoc :=
  ⟨r.device_id, r.type, r.timestamp, v, r.unit, roundTo 3 z,
    if field = "temperature" then roundq 2 (normValue field r v)
    else normValue field r v,
    roundq 2 m, roundTo 2 sd⟩

/-- `outliers.sort(key=lambda x: x["z_score"], reverse=True)`. -/
noncomputable def sortByZDesc (l : List OutlierDoc) : List OutlierDoc :=
  @List.insertionSort OutlierDoc (fun a b => b.z_score ≤ a.z_score)
    (Classical.decRel _) l

open Classical in
/-- The body of `detect_outliers` after a successful fetch of `rs`. -/
noncomputable def detect_outliers_core (field : String) (z_threshold : ℝ)
    (rs : List Reading) : List OutlierDoc :=
  if rs = [] then []
  else
    let vs := values field rs
    if vs.length < 2 then []
    else
      let m := mean vs
      let sd : ℝ := if 1 < vs.length then stdev vs else 0
      if sd = 0 then []
      else
        sortByZDesc (rs.filterMap fun r =>
          match getField r field with
          | none => none
          | some v =>
            let z : ℝ := |((normValue field r v : ℚ) : ℝ) - (m : ℝ)| / sd
            if z_threshold < z then some (mkOutlierDoc field r v z m sd)
            else none)

/-- `AdvancedAnalysis.detect_outliers`: returns `[]` when
`self.collection is None`, `[]` when the fetch raises (caught by
`except Exception`), and otherwise analyzes the fetched documents. -/
noncomputable def detect_outliers
    (store : Option (Except String (List Reading)))
    (field : String) (z_threshold : ℝ) : List OutlierDoc :=
  match store with
  | none => []
  | some (.error _) => []
  | some (.ok rs) => detect_outliers_core field z_threshold rs

/-! ## Hourly temperature summary (`AdvancedAnalysis.average_temperature_by_hour`) -/

/-- MongoDB's `$hour` applied to the parsed UTC instant: the hour of day
(0–23) of an epoch-seconds timestamp. -/
def hourOf (ts : ℤ) : ℤ := ts % 86400 / 3600

/-- The `$project` stage's `temperature_celsius`: `if unit == "F"` then
`((temperature - 32) / 1.8) - 0` else `temperature` (the pipeline literally
subtracts 0 after the division); `none` when the document has no
`temperature` field (`$avg`/`$min`/`$max` skip such documents). -/
def tempC (r : Reading) : Option ℚ :=
  r.temperature.map fun v =>
    if r.unit = some "F" then (v - 32) / 1.8 - 0 else v

/-- One element of the list returned by `average_temperature_by_hour`
(the final `$project` stage's document shape). -/
structure HourlyEntry where
  hour : ℤ
  sensor_type : String
  average_temperature_celsius : ℚ
  min_temperature_celsius : ℚ
  max_temperature_celsius : ℚ
  readings_count : ℕ
deriving DecidableEq, Repr

/-- `$min` accumulator over a group's projected temperatures. -/
def listMin : List ℚ → ℚ
  | [] => 0
  | v :: vs => vs.foldl min v

/-- `$max` accumulator over a group's projected temperatures. -/
def listMax : List ℚ → ℚ
  | [] => 0
  | v :: vs => vs.foldl max v

/-- The group document for key `(hour, type)` with member documents
`members`: `$avg`, `$min`, `$max` over the projected Celsius temperatures,
`$sum: 1` over the members, with the final `$round` to 2 decimals. -/
def mkHourlyEntry (k : ℤ × String) (members : List Reading) : HourlyEntry :=
  let temps := members.filterMap tempC
  ⟨k.1, k.2, roundq 2 (temps.sum / temps.length), roundq 2 (listMin temps),
    roundq 2 (listMax temps), members.length⟩

/-- The final `$sort: {hour: 1, sensor_type: 1}` order. -/
def hourlyLE (a b : HourlyEntry) : Prop :=
  a.hour < b.hour ∨ (a.hour = b.hour ∧ a.sensor_type ≤ b.sensor_type)

instance : DecidableRel hourlyLE := fun a b => by
  unfold hourlyLE; infer_instance

instance : IsTotal HourlyEntry hourlyLE :=
  ⟨fun a b => by
    unfold hourlyLE
    rcases lt_trichotomy a.hour b.hour with h | h | h
    · exact Or.inl (Or.inl h)
    · rcases le_total a.sensor_type b.sensor_type with hs | hs
      · exact Or.inl (Or.inr ⟨h, hs⟩)
      · exact Or.inr (Or.inr ⟨h.symm, hs⟩)
    · exact Or.inr (Or.inl h)⟩

instance : IsTrans HourlyEntry hourlyLE :=
  ⟨fun a b c hab hbc => by
    unfold hourlyLE at *
    rcases hab with h1 | ⟨h1, h2⟩ <;> rcases hbc with h3 | ⟨h3, h4⟩
    · exact Or.inl (h1.trans h3)
    · exact Or.inl (h3 ▸ h1)
    · exact Or.inl (h1 ▸ h3)
    · exact Or.inr ⟨h1.trans h3, le_trans h2 h4⟩⟩

/-- The `$match` stage of `average_temperature_by_hour`: keep documents with
`timestamp >= now - hours_back` hours; `now` is the instant of the
`datetime.now()` call. -/
def matchWindow (now hours_back : ℤ) (rs : List Reading) : List Reading :=
  rs.filter fun r => now - hours_back * 3600 ≤ r.timestamp

/-- The documents the `$group` stage collects into the bucket with composite
key `k = (hour, type)`. -/
def groupMembers (sel : List Reading) (k : ℤ × String) : List Reading :=
  sel.filter fun r => (hourOf r.timestamp, r.type) = k

/-- The `$group`/`$project`/`$sort` tail of the pipeline, applied to the
documents that passed the `$match` stage. -/
def hourlyGroupSort (sel : List Reading) : List HourlyEntry :=
  let keys := (sel.map fun r => (hourOf r.timestamp, r.type)).dedup
  List.insertionSort hourlyLE (keys.map fun k =>
    mkHourlyEntry k (groupMembers sel k))

/-- The body of `average_temperature_by_hour` after a successful aggregate
over `rs`: `$match`, then group / project / sort. -/
def hourlyCore (now hours_back : ℤ) (rs : List Reading) : List HourlyEntry :=
  hourlyGroupSort (matchWindow now hours_back rs)

/-- `AdvancedAnalysis.average_temperature_by_hour`: `[]` when
`self.collection is None`, `[]` when the aggregate raises, otherwise the
pipeline result. -/
def average_temperature_by_hour
    (store : Option (Except String (List Reading)))
    (now hours_back : ℤ) : List HourlyEntry :=
  match store with
  | none => []
  | some (.error _) => []
  | some (.ok rs) => hourlyCore now hours_back rs

/-! ## Per-sensor counts (`AdvancedAnalysis.count_readings_by_sensor`) -/

/-- One element of the list returned by `count_readings_by_sensor`. -/
structure SensorCount where
  device_id : String
  total_readings : ℕ
  sensor_type : String
  location : String
  first_reading : ℤ
  last_reading : ℤ
deriving DecidableEq, Repr

/-- `$min` accumulator over a group's timestamps. -/
def listMinZ : List ℤ → ℤ
  | [] => 0
  | v :: vs => vs.foldl min v

/-- `$max` accumulator over a group's timestamps. -/
def listMaxZ : List ℤ → ℤ
  | [] => 0
  | v :: vs => vs.foldl max v

/-- The group document for a `device_id`: `$sum: 1`, `$first` of
`type`/`location` (the representative is the group's first-encountered
document), `$min`/`$max` of `timestamp`. -/
def mkSensorCount (id : String) (members : List Reading) : SensorCount :=
  ⟨id, members.length, ((members.head?).map Reading.type).getD "",
    ((members.head?).map Reading.location).getD "",
    listMinZ (members.map Reading.timestamp),
    listMaxZ (members.map Reading.timestamp)⟩

/-- The `$group`/`$project`/`$sort` pipeline of `count_readings_by_sensor`
applied to the collection's documents: group by `device_id`, then sort by
`total_readings` descending. -/
def countCore (rs : List Reading) : List SensorCount :=
  let ids := (rs.map Reading.device_id).dedup
  List.insertionSort (fun a b => b.total_readings ≤ a.total_readings)
    (ids.map fun id => mkSensorCount id (rs.filter fun r => r.device_id = id))

/-- `AdvancedAnalysis.count_readings_by_sensor`: `[]` when
`self.collection is None`, `[]` when the aggregate raises, otherwise the
pipeline result. -/
def count_readings_by_sensor
    (store : Option (Except String (List Reading))) : List SensorCount :=
  match store with
  | none => []
  | some (.error _) => []
  | some (.ok rs) => countCore rs

/-! ## Definitions of concrete inputs used by witnesses and the fixed
spec vectors -/

/-- The raw z-score formula applied by `detect_outliers` to a document `r`
with raw field value `v`, relative to the statistics of the whole fetched
set `rs`: `|normalized value - mean| / std_dev`. -/
noncomputable def zscoreOf (field : String) (rs : List Reading) (r : Reading)
    (v : ℚ) : ℝ :=
  |((normValue field r v : ℚ) : ℝ) - ((mean (values field rs) : ℚ) : ℝ)| /
    stdev (values field rs)

/-- The constant Celsius vector `[5,5,5,5]` as four stored readings. -/
def constReadings : List Reading :=
  [⟨"sensor_01", "interior", some 5, none, none, none, some "C", "Sala 1", 0⟩,
   ⟨"sensor_01", "interior", some 5, none, none, none, some "C", "Sala 1", 60⟩,
   ⟨"sensor_03", "interior", some 5, none, none, none, some "C", "Sala 2", 120⟩,
   ⟨"sensor_05", "interior", some 5, none, none, none, some "C", "Sala 2", 180⟩]

/-- A two-element Celsius reading set with nonzero dispersion. -/
def twoReadings : List Reading :=
  [⟨"sensor_01", "interior", some 0, none, none, none, some "C", "Sala 1", 0⟩,
   ⟨"sensor_03", "interior", some 10, none, none, none, some "C", "Sala 2", 60⟩]

/-- A reading with Celsius temperature 10, used in the spec's fixed vector
`[10,10,10,10,100]`. -/
def demoCold : Reading :=
  ⟨"sensor_01", "interior", some 10, none, none, none, some "C", "Sala 1", 0⟩

/-- The reading carrying the value 100 of the spec's fixed vector. -/
def demoHot : Reading :=
  ⟨"sensor_05", "interior", some 100, none, none, none, some "C", "Sala 2", 240⟩

/-- The spec's fixed Celsius vector `[10,10,10,10,100]` as five stored
readings. -/
def demoReadings : List Reading :=
  [demoCold, demoCold, demoCold, demoCold, demoHot]

/-- A one-reading set whose timestamp lies before a query window, for the
empty-window witness. -/
def staleReadings : List Reading :=
  [⟨"sensor_02", "exterior", some 77, none, some 300, some 2, some "F",
    "Patio", 1000⟩]

/-- A one-reading set inside the query window, hour of day 5, for the
hourly-summary witness. -/
def windowReadings : List Reading :=
  [⟨"sensor_01", "interior", some 20, some 40, some 200, none, some "C",
    "Sala 1", 18000⟩]

/-! ## Helper lemmas -/

lemma le_round_of_le {a : ℤ} {x : ℚ} (h : (a : ℚ) ≤ x) : a ≤ round x := by
  have h1 := sub_half_lt_round x
  have h3 : ((a - 1 : ℤ) : ℚ) < ((round x : ℤ) : ℚ) := by push_cast; linarith
  have h4 : a - 1 < round x := by exact_mod_cast h3
  omega

lemma round_le_of_le {b : ℤ} {x : ℚ} (h : x ≤ (b : ℚ)) : round x ≤ b := by
  have h1 := round_le_add_half x
  have h3 : ((round x : ℤ) : ℚ) < ((b + 1 : ℤ) : ℚ) := by push_cast; linarith
  have h4 : round x < b + 1 := by exact_mod_cast h3
  omega

lemma roundq1_bounds {x : ℚ} {a b : ℤ} (ha : (a : ℚ) ≤ 10 * x)
    (hb : 10 * x ≤ (b : ℚ)) :
    ∃ n : ℤ, roundq 1 x = (n : ℚ) / 10 ∧ a ≤ n ∧ n ≤ b := by
  have hx : x * 10 ^ 1 = 10 * x := by ring
  refine ⟨round (x * 10 ^ 1), ?_, ?_, ?_⟩
  · unfold roundq; norm_num
  · apply le_round_of_le; rw [hx]; exact ha
  · apply round_le_of_le; rw [hx]; exact hb

lemma length_filter_key {α κ : Type} [DecidableEq κ] (key : α → κ) (l : List α)
    (k : κ) : (l.filter fun a => key a = k).length = (l.map key).count k := by
  induction l with
  | nil => simp
  | cons a l ih =>
    by_cases h : key a = k <;>
      simp [List.filter_cons, List.count_cons, h, ih, beq_iff_eq]

lemma sum_group_lengths {α κ : Type} [DecidableEq κ] (key : α → κ)
    (l : List α) :
    (((l.map key).dedup).map fun k =>
      (l.filter fun a => key a = k).length).sum = l.length := by
  have h : (((l.map key).dedup).map fun k =>
        (l.filter fun a => key a = k).length)
      = ((l.map key).dedup).map fun k => (l.map key).count k := by
    simp [length_filter_key]
  rw [h, List.sum_map_count_dedup_eq_length, List.length_map]

lemma sum_map_insertionSort {α : Type} (r : α → α → Prop) [DecidableRel r]
    (f : α → ℕ) (l : List α) :
    ((List.insertionSort r l).map f).sum = (l.map f).sum :=
  ((List.perm_insertionSort r l).map f).sum_eq

/-! ## Claim theorems -/

/-- C8: every analyzer operation returns an empty list when no connection has
been established (`self.collection is None`) and when the store access
raises an error; no exception escapes (the embedded operations are total
functions into lists). -/
theorem analyzer_degrades_to_empty (field : String) (t : ℝ) (now hb : ℤ) :
    detect_outliers none field t = [] ∧
    average_temperature_by_hour none now hb = [] ∧
    count_readings_by_sensor none = [] ∧
    (∀ e : String,
      detect_outliers (some (Except.error e)) field t = [] ∧
      average_temperature_by_hour (some (Except.error e)) now hb = [] ∧
      count_readings_by_sensor (some (Except.error e)) = []) :=
  ⟨rfl, rfl, rfl, fun _ => ⟨rfl, rfl, rfl⟩⟩

/-- C9: the per-sensor counts produced by `count_readings_by_sensor` sum to
the total number of documents in the queried set. -/
theorem sensor_counts_sum_to_total (rs : List Reading) :
    ((count_readings_by_sensor (some (Except.ok rs))).map
      SensorCount.total_readings).sum = rs.length := by
  show ((countCore rs).map SensorCount.total_readings).sum = rs.length
  unfold countCore
  rw [sum_map_insertionSort, List.map_map]
  have h : (SensorCount.total_readings ∘ fun id =>
        mkSensorCount id (rs.filter fun r => r.device_id = id))
      = fun id => (rs.filter fun r => r.device_id = id).length := rfl
  rw [h]
  exact sum_group_lengths Reading.device_id rs

/-- C10: a non-`None` `device_id` argument is used verbatim by both
generators, with no validation, even when it lies outside the family's
sensor pool. -/
theorem device_id_override_verbatim :
    (∀ (d devPick : String) (tempDraw : ℚ) (humDraw lightDraw : ℤ)
        (uvDraw : ℚ) (locPick : String) (now : ℤ),
      (generate_interior_reading (some d) devPick tempDraw humDraw lightDraw
          locPick now).device_id = d ∧
      (generate_exterior_reading (some d) devPick tempDraw lightDraw uvDraw
          locPick now).device_id = d) ∧
    "sensor_99" ∉ interior_sensors ∧ "sensor_99" ∉ exterior_sensors :=
  ⟨fun _ _ _ _ _ _ _ _ => ⟨rfl, rfl⟩, by decide, by decide⟩

/-- C4: every interior reading generated with the `device_id` argument
omitted has unit `"C"`, an integer humidity in [30,70], no `uv_index`, a
one-decimal temperature in [18.0, 28.0], an integer light level in
[100,500], a device id from the interior pool and a location from the
interior location pool.  The hypotheses are the contracts of the `random`
library calls that produced the draws. -/
theorem interior_reading_shape (devPick : String) (tempDraw : ℚ)
    (humDraw lightDraw : ℤ) (locPick : String) (now : ℤ)
    (hdev : devPick ∈ interior_sensors)
    (ht1 : 18 ≤ tempDraw) (ht2 : tempDraw ≤ 28)
    (hh1 : 30 ≤ humDraw) (hh2 : humDraw ≤ 70)
    (hl1 : 100 ≤ lightDraw) (hl2 : lightDraw ≤ 500)
    (hloc : locPick ∈ interior_locations) :
    (generate_interior_reading none devPick tempDraw humDraw lightDraw
        locPick now).unit = some "C" ∧
    (∃ n : ℤ, (generate_interior_reading none devPick tempDraw humDraw
        lightDraw locPick now).humidity = some (n : ℚ) ∧ 30 ≤ n ∧ n ≤ 70) ∧
    (generate_interior_reading none devPick tempDraw humDraw lightDraw
        locPick now).uv_index = none ∧
    (∃ n : ℤ, (generate_interior_reading none devPick tempDraw humDraw
        lightDraw locPick now).temperature = some ((n : ℚ) / 10) ∧
      18 ≤ (n : ℚ) / 10 ∧ (n : ℚ) / 10 ≤ 28) ∧
    (∃ n : ℤ, (generate_interior_reading none devPick tempDraw humDraw
        lightDraw locPick now).light = some (n : ℚ) ∧ 100 ≤ n ∧ n ≤ 500) ∧
    (generate_interior_reading none devPick tempDraw humDraw lightDraw
        locPick now).device_id ∈ interior_sensors ∧
    (generate_interior_reading none devPick tempDraw humDraw lightDraw
        locPick now).location ∈ interior_locations := by
  refine ⟨rfl, ⟨humDraw, rfl, hh1, hh2⟩, rfl, ?_, ⟨lightDraw, rfl, hl1, hl2⟩,
    hdev, hloc⟩
  obtain ⟨n, hn, h180, h280⟩ := @roundq1_bounds tempDraw 180 280
    (by push_cast; linarith) (by push_cast; linarith)
  refine ⟨n, ?_, ?_, ?_⟩
  · show some (roundq 1 tempDraw) = _
    rw [hn]
  · have hc : ((180 : ℤ) : ℚ) ≤ (n : ℚ) := by exact_mod_cast h180
    push_cast at hc
    linarith
  · have hc : (n : ℚ) ≤ ((280 : ℤ) : ℚ) := by exact_mod_cast h280
    push_cast at hc
    linarith

/-- Witness for C4 at concrete draws. -/
theorem interior_reading_shape_witness :
    ("sensor_01" ∈ interior_sensors ∧ (18 : ℚ) ≤ 203 / 10 ∧
      (203 / 10 : ℚ) ≤ 28 ∧ (30 : ℤ) ≤ 50 ∧ (50 : ℤ) ≤ 70 ∧
      (100 : ℤ) ≤ 300 ∧ (300 : ℤ) ≤ 500 ∧ "Sala 1" ∈ interior_locations) ∧
    (generate_interior_reading none "sensor_01" (203 / 10) 50 300 "Sala 1"
        0).unit = some "C" :=
  ⟨⟨by decide, by norm_num, by norm_num, by norm_num, by norm_num,
      by norm_num, by norm_num, by decide⟩,
    (interior_reading_shape "sensor_01" (203 / 10) 50 300 "Sala 1" 0
      (by decide) (by norm_num) (by norm_num) (by norm_num) (by norm_num)
      (by norm_num) (by norm_num) (by decide)).1⟩

lemma abs_roundq1_sub (x : ℚ) : |roundq 1 x - x| ≤ 1 / 20 := by
  unfold roundq
  have h : |x * 10 ^ 1 - (round (x * 10 ^ 1) : ℚ)| ≤ 1 / 2 :=
    abs_sub_round (x * 10 ^ 1)
  have h2 : (round (x * 10 ^ 1) : ℚ) / 10 ^ 1 - x
      = ((round (x * 10 ^ 1) : ℚ) - x * 10 ^ 1) / 10 ^ 1 := by ring
  rw [h2, abs_div, abs_sub_comm]
  have h3 : |(10 : ℚ) ^ 1| = 10 := by norm_num
  rw [h3, div_le_iff₀ (by norm_num : (0 : ℚ) < 10)]
  linarith

/-- C5: every exterior reading generated with the `device_id` argument
omitted has unit `"F"`, a one-decimal `uv_index` in [0,11], no humidity, a
temperature obtained as `round(C * 9/5 + 32, 1)` for a Celsius draw
`C ∈ [5,35]` whose Fahrenheit-to-Celsius inverse `(F-32)/1.8` is within
rounding tolerance (1/36 = 0.05/1.8) of `C` and hence lies in
`[5 - 1/36, 35 + 1/36]`, an integer light level in [200,1000], and a device
id from the exterior pool. -/
theorem exterior_reading_shape (devPick : String) (tempDraw : ℚ)
    (lightDraw : ℤ) (uvDraw : ℚ) (locPick : String) (now : ℤ)
    (hdev : devPick ∈ exterior_sensors)
    (ht1 : 5 ≤ tempDraw) (ht2 : tempDraw ≤ 35)
    (hl1 : 200 ≤ lightDraw) (hl2 : lightDraw ≤ 1000)
    (hu1 : 0 ≤ uvDraw) (hu2 : uvDraw ≤ 11) :
    (generate_exterior_reading none devPick tempDraw lightDraw uvDraw
        locPick now).unit = some "F" ∧
    (∃ n : ℤ, (generate_exterior_reading none devPick tempDraw lightDraw
        uvDraw locPick now).uv_index = some ((n : ℚ) / 10) ∧
      0 ≤ (n : ℚ) / 10 ∧ (n : ℚ) / 10 ≤ 11) ∧
    (generate_exterior_reading none devPick tempDraw lightDraw uvDraw
        locPick now).humidity = none ∧
    (∃ C F : ℚ, 5 ≤ C ∧ C ≤ 35 ∧
      (generate_exterior_reading none devPick tempDraw lightDraw uvDraw
          locPick now).temperature = some F ∧
      F = roundq 1 (C * 9 / 5 + 32) ∧
      |(F - 32) / 1.8 - C| ≤ 1 / 36 ∧
      5 - 1 / 36 ≤ (F - 32) / 1.8 ∧ (F - 32) / 1.8 ≤ 35 + 1 / 36) ∧
    (∃ n : ℤ, (generate_exterior_reading none devPick tempDraw lightDraw
        uvDraw locPick now).light = some (n : ℚ) ∧ 200 ≤ n ∧ n ≤ 1000) ∧
    (generate_exterior_reading none devPick tempDraw lightDraw uvDraw
        locPick now).device_id ∈ exterior_sensors := by
  refine ⟨rfl, ?_, rfl, ?_, ⟨lightDraw, rfl, hl1, hl2⟩, hdev⟩
  · obtain ⟨n, hn, h0, h110⟩ := @roundq1_bounds uvDraw 0 110
      (by push_cast; linarith) (by push_cast; linarith)
    refine ⟨n, ?_, ?_, ?_⟩
    · show some (roundq 1 uvDraw) = _
      rw [hn]
    · have hc : ((0 : ℤ) : ℚ) ≤ (n : ℚ) := by exact_mod_cast h0
      push_cast at hc
      linarith
    · have hc : (n : ℚ) ≤ ((110 : ℤ) : ℚ) := by exact_mod_cast h110
      push_cast at hc
      linarith
  · refine ⟨tempDraw, _celsius_to_fahrenheit tempDraw, ht1, ht2, rfl, ?_, ?_⟩
    · unfold _celsius_to_fahrenheit roundq
      ring_nf
    · have habs : |_celsius_to_fahrenheit tempDraw
          - (tempDraw * 9 / 5 + 32)| ≤ 1 / 20 :=
        abs_roundq1_sub (tempDraw * 9 / 5 + 32)
      set F := _celsius_to_fahrenheit tempDraw with hF
      have key : (F - 32) / 1.8 - tempDraw
          = (F - (tempDraw * 9 / 5 + 32)) / 1.8 := by ring
      have hdiff : |(F - 32) / 1.8 - tempDraw| ≤ 1 / 36 := by
        rw [key, abs_div]
        have h18 : |(1.8 : ℚ)| = 1.8 := by norm_num
        rw [h18, div_le_iff₀ (by norm_num : (0 : ℚ) < 1.8)]
        calc |F - (tempDraw * 9 / 5 + 32)| ≤ 1 / 20 := habs
          _ ≤ 1 / 36 * 1.8 := by norm_num
      have hb := abs_le.mp hdiff
      exact ⟨hdiff, by linarith [hb.1], by linarith [hb.2]⟩

/-- Witness for C5 at concrete draws. -/
theorem exterior_reading_shape_witness :
    ("sensor_02" ∈ exterior_sensors ∧ (5 : ℚ) ≤ 20 ∧ (20 : ℚ) ≤ 35 ∧
      (200 : ℤ) ≤ 600 ∧ (600 : ℤ) ≤ 1000 ∧ (0 : ℚ) ≤ 7 / 2 ∧
      (7 / 2 : ℚ) ≤ 11) ∧
    (generate_exterior_reading none "sensor_02" 20 600 (7 / 2) "Patio"
        0).unit = some "F" :=
  ⟨⟨by decide, by norm_num, by norm_num, by norm_num, by norm_num,
      by norm_num, by norm_num⟩,
    (exterior_reading_shape "sensor_02" 20 600 (7 / 2) "Patio" 0
      (by decide) (by norm_num) (by norm_num) (by norm_num) (by norm_num)
      (by norm_num) (by norm_num)).1⟩

/-- C2: `detect_outliers` returns the empty list, for every threshold,
whenever fewer than 2 normalized values are available or the sample standard
deviation of the normalized values is exactly 0; the standard deviation is
never used as a divisor in that case. -/
theorem detect_outliers_empty_on_degenerate (field : String) (t : ℝ)
    (rs : List Reading)
    (h : (values field rs).length < 2 ∨ stdev (values field rs) = 0) :
    detect_outliers (some (Except.ok rs)) field t = [] := by
  show detect_outliers_core field t rs = []
  by_cases hrs : rs = []
  · simp [detect_outliers_core, hrs]
  · by_cases hlen : (values field rs).length < 2
    · simp [detect_outliers_core, hrs, hlen]
    · have h0 : stdev (values field rs) = 0 := h.resolve_left hlen
      have h1 : 1 < (values field rs).length := by omega
      simp [detect_outliers_core, hrs, hlen, h1, h0]

/-- Witness for C2: the constant vector `[5,5,5,5]` has standard deviation
exactly 0, and outlier detection on it returns the empty list. -/
theorem detect_outliers_empty_on_degenerate_witness :
    ((values "temperature" constReadings).length < 2 ∨
      stdev (values "temperature" constReadings) = 0) ∧
    values "temperature" constReadings = [5, 5, 5, 5] ∧
    detect_outliers (some (Except.ok constReadings)) "temperature"
      (5 / 2) = [] := by
  have hv : values "temperature" constReadings = [5, 5, 5, 5] := by decide
  have hsv : svar (values "temperature" constReadings) = 0 := by
    rw [hv]
    norm_num [svar, mean]
  have h0 : stdev (values "temperature" constReadings) = 0 := by
    unfold stdev
    rw [hsv]
    norm_num
  exact ⟨Or.inr h0, hv,
    detect_outliers_empty_on_degenerate "temperature" (5 / 2) constReadings
      (Or.inr h0)⟩

lemma detect_outliers_core_eq (field : String) (t : ℝ) (rs : List Reading)
    (h2 : 2 ≤ (values field rs).length)
    (hsd : stdev (values field rs) ≠ 0) :
    detect_outliers_core field t rs
      = sortByZDesc (rs.filterMap fun r =>
          match getField r field with
          | none => none
          | some v =>
            if t < zscoreOf field rs r v
            then some (mkOutlierDoc field r v (zscoreOf field rs r v)
                (mean (values field rs)) (stdev (values field rs)))
            else none) := by
  have hne : ¬ rs = [] := by
    rintro rfl
    simp [values] at h2
  have hlen : ¬ ((values field rs).length < 2) := by omega
  have h1 : 1 < (values field rs).length := by omega
  simp only [detect_outliers_core, if_neg hne, if_neg hlen, if_pos h1,
    if_neg hsd]
  rfl

/-- C1: with at least 2 normalized values and nonzero sample standard
deviation, `detect_outliers` contains a document for a fetched reading if
and only if the reading's normalized value `v` (temperature values with unit
`"F"` converted to Celsius first) satisfies `|v - mean| / std_dev >
z_threshold`; the returned list is sorted by `z_score` descending, and each
document carries the z-score rounded to 3 decimals and the mean and standard
deviation rounded to 2 decimals. -/
theorem outlier_membership_and_sorting (field : String) (t : ℝ)
    (rs : List Reading)
    (h2 : 2 ≤ (values field rs).length)
    (hsd : stdev (values field rs) ≠ 0) :
    (∀ d : OutlierDoc,
      d ∈ detect_outliers (some (Except.ok rs)) field t ↔
        ∃ r ∈ rs, ∃ v : ℚ, getField r field = some v ∧
          t < zscoreOf field rs r v ∧
          d = mkOutlierDoc field r v (zscoreOf field rs r v)
                (mean (values field rs)) (stdev (values field rs))) ∧
    (detect_outliers (some (Except.ok rs)) field t).Sorted
      (fun a b => b.z_score ≤ a.z_score) ∧
    (∀ d ∈ detect_outliers (some (Except.ok rs)) field t,
      ∃ r ∈ rs, ∃ v : ℚ, getField r field = some v ∧
        d.z_score = roundTo 3 (zscoreOf field rs r v) ∧
        d.mean = roundq 2 (mean (values field rs)) ∧
        d.std_dev = roundTo 2 (stdev (values field rs))) := by
  have heq : detect_outliers (some (Except.ok rs)) field t
      = sortByZDesc (rs.filterMap fun r =>
          match getField r field with
          | none => none
          | some v =>
            if t < zscoreOf field rs r v
            then some (mkOutlierDoc field r v (zscoreOf field rs r v)
                (mean (values field rs)) (stdev (values field rs)))
            else none) :=
    detect_outliers_core_eq field t rs h2 hsd
  have hmem : ∀ d : OutlierDoc,
      d ∈ detect_outliers (some (Except.ok rs)) field t ↔
        ∃ r ∈ rs, ∃ v : ℚ, getField r field = some v ∧
          t < zscoreOf field rs r v ∧
          d = mkOutlierDoc field r v (zscoreOf field rs r v)
                (mean (values field rs)) (stdev (values field rs)) := by
    intro d
    rw [heq]
    unfold sortByZDesc
    rw [List.mem_insertionSort, List.mem_filterMap]
    constructor
    · rintro ⟨r, hr, hfr⟩
      refine ⟨r, hr, ?_⟩
      rcases hgf : getField r field with _ | v
      · rw [hgf] at hfr
        exact Option.noConfusion hfr
      · rw [hgf] at hfr
        have hfr2 : (if t < zscoreOf field rs r v
            then some (mkOutlierDoc field r v (zscoreOf field rs r v)
              (mean (values field rs)) (stdev (values field rs)))
            else none) = some d := hfr
        by_cases hz : t < zscoreOf field rs r v
        · rw [if_pos hz] at hfr2
          exact ⟨v, rfl, hz, (Option.some.injEq _ _ ▸ hfr2).symm⟩
        · rw [if_neg hz] at hfr2
          cases hfr2
    · rintro ⟨r, hr, v, hgf, hz, rfl⟩
      refine ⟨r, hr, ?_⟩
      rw [hgf]
      show (if t < zscoreOf field rs r v
          then some (mkOutlierDoc field r v (zscoreOf field rs r v)
            (mean (values field rs)) (stdev (values field rs)))
          else none) = _
      rw [if_pos hz]
  refine ⟨hmem, ?_, ?_⟩
  · rw [heq]
    unfold sortByZDesc
    haveI ht : IsTotal OutlierDoc (fun a b => b.z_score ≤ a.z_score) :=
      ⟨fun a b => le_total b.z_score a.z_score⟩
    haveI htr : IsTrans OutlierDoc (fun a b => b.z_score ≤ a.z_score) :=
      ⟨fun a b c hab hbc => le_trans hbc hab⟩
    exact List.sorted_insertionSort _ _
  · intro d hd
    obtain ⟨r, hr, v, hgf, _, rfl⟩ := (hmem d).mp hd
    exact ⟨r, hr, v, hgf, rfl, rfl, rfl⟩

/-- Witness for C1: a two-reading set with values `[0, 10]` meets the
hypotheses, and the result list is sorted by z-score descending. -/
theorem outlier_membership_and_sorting_witness :
    2 ≤ (values "temperature" twoReadings).length ∧
    stdev (values "temperature" twoReadings) ≠ 0 ∧
    (detect_outliers (some (Except.ok twoReadings)) "temperature"
        (1 / 2)).Sorted (fun a b => b.z_score ≤ a.z_score) := by
  have hv : values "temperature" twoReadings = [0, 10] := by decide
  have hsv : svar (values "temperature" twoReadings) = 50 := by
    rw [hv]
    norm_num [svar, mean]
  have hsd : stdev (values "temperature" twoReadings) ≠ 0 := by
    unfold stdev
    rw [hsv]
    have hp : (0 : ℝ) < Real.sqrt ((50 : ℚ) : ℝ) :=
      Real.sqrt_pos.mpr (by norm_num)
    exact hp.ne'
  have h2 : 2 ≤ (values "temperature" twoReadings).length := by
    rw [hv]
    norm_num
  exact ⟨h2, hsd,
    (outlier_membership_and_sorting "temperature" (1 / 2) twoReadings h2
      hsd).2.1⟩

lemma roundTo_eq_of_bounds (n : ℕ) (x : ℝ) (k : ℤ)
    (hlo : (k : ℝ) - 1 / 2 ≤ x * 10 ^ n) (hhi : x * 10 ^ n < (k : ℝ) + 1 / 2) :
    roundTo n x = (k : ℝ) / 10 ^ n := by
  unfold roundTo
  have hr : round (x * 10 ^ n) = k := by
    rw [round_eq, Int.floor_eq_iff]
    constructor
    · linarith
    · linarith
  rw [hr]

lemma values_demo : values "temperature" demoReadings = [10, 10, 10, 10, 100] := by
  decide

lemma mean_demo : mean (values "temperature" demoReadings) = 28 := by
  rw [values_demo]
  norm_num [mean]

lemma svar_demo : svar (values "temperature" demoReadings) = 1620 := by
  rw [values_demo]
  norm_num [svar, mean]

lemma stdev_demo : stdev (values "temperature" demoReadings) = Real.sqrt 1620 := by
  unfold stdev
  rw [svar_demo]
  norm_num

lemma sqrt1620_sq : Real.sqrt 1620 ^ 2 = 1620 := Real.sq_sqrt (by norm_num)

lemma sqrt1620_pos : (0 : ℝ) < Real.sqrt 1620 := Real.sqrt_pos.mpr (by norm_num)

lemma sqrt1620_lb : (40.245 : ℝ) ≤ Real.sqrt 1620 := by
  nlinarith [sqrt1620_sq, sqrt1620_pos]

lemma sqrt1620_ub : Real.sqrt 1620 < (40.255 : ℝ) := by
  nlinarith [sqrt1620_sq, sqrt1620_pos]

lemma stdev_demo_round2 :
    roundTo 2 (stdev (values "temperature" demoReadings)) = 40.25 := by
  rw [stdev_demo]
  have h := roundTo_eq_of_bounds 2 (Real.sqrt 1620) 4025
    (by norm_num; linarith [sqrt1620_lb]) (by norm_num; linarith [sqrt1620_ub])
  rw [h]
  norm_num

lemma zscore_demoHot :
    zscoreOf "temperature" demoReadings demoHot 100 = 72 / Real.sqrt 1620 := by
  have hnv : normValue "temperature" demoHot 100 = 100 := by decide
  unfold zscoreOf
  rw [hnv, mean_demo, stdev_demo]
  have habs : |((100 : ℚ) : ℝ) - ((28 : ℚ) : ℝ)| = 72 := by
    push_cast
    rw [show ((100 : ℝ) - 28) = 72 by norm_num]
    exact abs_of_nonneg (by norm_num)
  rw [habs]

lemma zscore_demoCold :
    zscoreOf "temperature" demoReadings demoCold 10 = 18 / Real.sqrt 1620 := by
  have hnv : normValue "temperature" demoCold 10 = 10 := by decide
  unfold zscoreOf
  rw [hnv, mean_demo, stdev_demo]
  have habs : |((10 : ℚ) : ℝ) - ((28 : ℚ) : ℝ)| = 18 := by
    push_cast
    rw [show ((10 : ℝ) - 28) = -18 by norm_num, abs_neg]
    exact abs_of_nonneg (by norm_num)
  rw [habs]

lemma z100_round3 :
    roundTo 3 (zscoreOf "temperature" demoReadings demoHot 100) = 1.789 := by
  rw [zscore_demoHot]
  have hlo : (1789 : ℝ) - 1 / 2 ≤ 72 / Real.sqrt 1620 * 10 ^ 3 := by
    rw [div_mul_eq_mul_div, le_div_iff₀ sqrt1620_pos]
    norm_num
    linarith [sqrt1620_ub]
  have hhi : 72 / Real.sqrt 1620 * 10 ^ 3 < (1789 : ℝ) + 1 / 2 := by
    rw [div_mul_eq_mul_div, div_lt_iff₀ sqrt1620_pos]
    norm_num
    linarith [sqrt1620_lb]
  rw [roundTo_eq_of_bounds 3 _ 1789 hlo hhi]
  norm_num

/-- C3 (counterexample): on the fixed Celsius vector `[10,10,10,10,100]` the
sample standard deviation used by `detect_outliers` is `√1620 ≈ 40.25`, not
`≈ 40.12` as claimed: rounded to 2 decimals it is not 40.12, and the exact
value already exceeds 40.2. -/
theorem demo_stdev_not_40_12 :
    roundTo 2 (stdev (values "temperature" demoReadings)) ≠ 40.12 ∧
    (40.2 : ℝ) < stdev (values "temperature" demoReadings) := by
  constructor
  · rw [stdev_demo_round2]
    norm_num
  · rw [stdev_demo]
    linarith [sqrt1620_lb]

/-- C3 (amended): on the fixed Celsius vector `[10,10,10,10,100]` the
statistics used by `detect_outliers` give mean = 28 and sample
(Bessel-corrected) standard deviation √1620 ≈ 40.25 (not 40.12); the value
100 receives z ≈ 1.8 (1.789 at 3 decimals), so with the default threshold
2.5 no value of this vector is flagged as an outlier. -/
theorem demo_vector_statistics :
    mean (values "temperature" demoReadings) = 28 ∧
    roundTo 2 (stdev (values "temperature" demoReadings)) = 40.25 ∧
    roundTo 3 (zscoreOf "temperature" demoReadings demoHot 100) = 1.789 ∧
    detect_outliers (some (Except.ok demoReadings)) "temperature"
      (5 / 2) = [] := by
  refine ⟨mean_demo, stdev_demo_round2, z100_round3, ?_⟩
  have h2 : 2 ≤ (values "temperature" demoReadings).length := by
    rw [values_demo]
    norm_num
  have hsd : stdev (values "temperature" demoReadings) ≠ 0 := by
    rw [stdev_demo]
    exact sqrt1620_pos.ne'
  have hzc : ¬ ((5 : ℝ) / 2 < zscoreOf "temperature" demoReadings demoCold 10) := by
    rw [zscore_demoCold, not_lt, div_le_iff₀ sqrt1620_pos]
    linarith [sqrt1620_lb]
  have hzh : ¬ ((5 : ℝ) / 2 < zscoreOf "temperature" demoReadings demoHot 100) := by
    rw [zscore_demoHot, not_lt, div_le_iff₀ sqrt1620_pos]
    linarith [sqrt1620_lb]
  show detect_outliers_core "temperature" (5 / 2) demoReadings = []
  rw [detect_outliers_core_eq "temperature" (5 / 2) demoReadings h2 hsd]
  refine Eq.trans (congrArg sortByZDesc (List.filterMap_eq_nil_iff.mpr ?_)) rfl
  intro r hr
  have hr' : r = demoCold ∨ r = demoHot := by
    simp only [demoReadings, List.mem_cons, List.mem_singleton,
      List.not_mem_nil, or_false] at hr
    tauto
  rcases hr' with rfl | rfl
  · exact if_neg hzc
  · exact if_neg hzh

/-- C6: the hourly temperature summary groups the selected readings by the
pair (hour of day 0–23 extracted from the timestamp, sensor type) — so
readings 24 hours (one calendar day) apart collapse into the same bucket —
reports per group the average, min and max Celsius temperature rounded to 2
decimals together with a count, and orders the output by (hour, sensor type)
ascending. -/
theorem hourly_grouping_and_order (rs : List Reading) (now hb : ℤ) :
    (∀ (h : ℤ) (ty : String),
      (∃ e ∈ average_temperature_by_hour (some (Except.ok rs)) now hb,
          e.hour = h ∧ e.sensor_type = ty) ↔
        (∃ r ∈ matchWindow now hb rs,
          hourOf r.timestamp = h ∧ r.type = ty)) ∧
    (∀ e ∈ average_temperature_by_hour (some (Except.ok rs)) now hb,
      e.readings_count
          = (groupMembers (matchWindow now hb rs)
              (e.hour, e.sensor_type)).length ∧
      e.average_temperature_celsius
          = roundq 2 ((((groupMembers (matchWindow now hb rs)
                (e.hour, e.sensor_type)).filterMap tempC).sum) /
              (((groupMembers (matchWindow now hb rs)
                (e.hour, e.sensor_type)).filterMap tempC).length)) ∧
      e.min_temperature_celsius
          = roundq 2 (listMin ((groupMembers (matchWindow now hb rs)
              (e.hour, e.sensor_type)).filterMap tempC)) ∧
      e.max_temperature_celsius
          = roundq 2 (listMax ((groupMembers (matchWindow now hb rs)
              (e.hour, e.sensor_type)).filterMap tempC))) ∧
    (average_temperature_by_hour (some (Except.ok rs)) now hb).Sorted
      hourlyLE ∧
    (∀ ts : ℤ, hourOf (ts + 86400) = hourOf ts ∧
      0 ≤ hourOf ts ∧ hourOf ts < 24) := by
  have hmem : ∀ e : HourlyEntry,
      e ∈ average_temperature_by_hour (some (Except.ok rs)) now hb ↔
        ∃ k ∈ ((matchWindow now hb rs).map fun r =>
            (hourOf r.timestamp, r.type)).dedup,
          e = mkHourlyEntry k (groupMembers (matchWindow now hb rs) k) := by
    intro e
    show e ∈ hourlyGroupSort (matchWindow now hb rs) ↔ _
    unfold hourlyGroupSort
    rw [List.mem_insertionSort, List.mem_map]
    constructor
    · rintro ⟨k, hk, rfl⟩
      exact ⟨k, hk, rfl⟩
    · rintro ⟨k, hk, rfl⟩
      exact ⟨k, hk, rfl⟩
  refine ⟨?_, ?_, ?_, ?_⟩
  · intro h ty
    constructor
    · rintro ⟨e, he, hh, hty⟩
      obtain ⟨k, hk, rfl⟩ := (hmem e).mp he
      obtain ⟨r, hr, hkey⟩ := List.mem_map.mp (List.mem_dedup.mp hk)
      refine ⟨r, hr, ?_, ?_⟩
      · rw [← hh]
        show hourOf r.timestamp = k.1
        rw [← hkey]
      · rw [← hty]
        show r.type = k.2
        rw [← hkey]
    · rintro ⟨r, hr, hh, hty⟩
      refine ⟨mkHourlyEntry (h, ty)
          (groupMembers (matchWindow now hb rs) (h, ty)), ?_, rfl, rfl⟩
      refine (hmem _).mpr ⟨(h, ty), ?_, rfl⟩
      refine List.mem_dedup.mpr (List.mem_map.mpr ⟨r, hr, ?_⟩)
      rw [hh, hty]
  · intro e he
    obtain ⟨k, _, rfl⟩ := (hmem e).mp he
    have hkey : ((mkHourlyEntry k (groupMembers (matchWindow now hb rs) k)).hour,
        (mkHourlyEntry k (groupMembers (matchWindow now hb rs) k)).sensor_type)
        = k := Prod.mk.eta
    rw [hkey]
    exact ⟨rfl, rfl, rfl, rfl⟩
  · show (hourlyGroupSort (matchWindow now hb rs)).Sorted hourlyLE
    unfold hourlyGroupSort
    exact List.sorted_insertionSort hourlyLE _
  · intro ts
    refine ⟨?_, ?_, ?_⟩ <;> unfold hourOf <;> omega

/-- Witness for C6: a single in-window reading at hour 5 produces an entry
with hour 5 and sensor type "interior". -/
theorem hourly_grouping_and_order_witness :
    (∃ r ∈ matchWindow 86400 24 windowReadings,
      hourOf r.timestamp = 5 ∧ r.type = "interior") ∧
    (∃ e ∈ average_temperature_by_hour (some (Except.ok windowReadings))
        86400 24, e.hour = 5 ∧ e.sensor_type = "interior") := by
  have hpre : ∃ r ∈ matchWindow 86400 24 windowReadings,
      hourOf r.timestamp = 5 ∧ r.type = "interior" := by decide
  exact ⟨hpre,
    ((hourly_grouping_and_order windowReadings 86400 24).1 5 "interior").mpr
      hpre⟩

/-- C7: `average_temperature_by_hour` operates on exactly the stored readings
whose timestamp is at least the invocation instant minus `hours_back` hours:
the per-bucket counts sum to the number of in-window readings, readings
outside the window have no influence on the result, and an empty window
yields an empty result rather than an error. -/
theorem hourly_window_selection (rs : List Reading) (now hb : ℤ) :
    ((average_temperature_by_hour (some (Except.ok rs)) now hb).map
        HourlyEntry.readings_count).sum = (matchWindow now hb rs).length ∧
    (∀ rs2 : List Reading, matchWindow now hb rs = matchWindow now hb rs2 →
      average_temperature_by_hour (some (Except.ok rs)) now hb
        = average_temperature_by_hour (some (Except.ok rs2)) now hb) ∧
    ((∀ r ∈ rs, r.timestamp < now - hb * 3600) →
      average_temperature_by_hour (some (Except.ok rs)) now hb = []) := by
  refine ⟨?_, ?_, ?_⟩
  · show ((hourlyGroupSort (matchWindow now hb rs)).map
        HourlyEntry.readings_count).sum = (matchWindow now hb rs).length
    unfold hourlyGroupSort
    rw [sum_map_insertionSort, List.map_map]
    have h : (HourlyEntry.readings_count ∘ fun k =>
          mkHourlyEntry k (groupMembers (matchWindow now hb rs) k))
        = fun k => ((matchWindow now hb rs).filter fun r =>
            (fun r => (hourOf r.timestamp, r.type)) r = k).length := rfl
    rw [h]
    exact sum_group_lengths (fun r => (hourOf r.timestamp, r.type))
      (matchWindow now hb rs)
  · intro rs2 h12
    show hourlyGroupSort (matchWindow now hb rs)
        = hourlyGroupSort (matchWindow now hb rs2)
    rw [h12]
  · intro hall
    show hourlyGroupSort (matchWindow now hb rs) = []
    have hnil : matchWindow now hb rs = [] := by
      unfold matchWindow
      rw [List.filter_eq_nil_iff]
      intro a ha
      simp only [decide_eq_true_eq, not_le]
      exact hall a ha
    rw [hnil]
    rfl

/-- Witness for C7: a reading strictly before the window start yields the
empty summary. -/
theorem hourly_window_selection_witness :
    (∀ r ∈ staleReadings, r.timestamp < 1000000 - 0 * 3600) ∧
    average_temperature_by_hour (some (Except.ok staleReadings))
      1000000 0 = [] := by
  have h : ∀ r ∈ staleReadings, r.timestamp < 1000000 - 0 * 3600 := by
    decide
  exact ⟨h, (hourly_window_selection staleReadings 1000000 0).2.2 h⟩
